import Mathlib

/-!
Shallow embedding of the authentication/authorization core of the
user-account service (src/controllers/auth.js and src/routes/auth.js).

The persistent store (mongoose `User` model) is modelled as a list of
records with lookup by id / email; `bcrypt` hashing is modelled as an
injective tagging function (no claim depends on hash internals).
The `protect` / `authorize` middleware (middleware/auth.js) is not part
of the provided sources, so it is modelled from the specification
(section 4.3) where a claim needs it.
-/

/-- Role of a user: the schema enumerates `user` and `admin`. -/
inductive Role where
  | user
  | admin
deriving DecidableEq, Repr

/-- A persisted user record.  `password` holds the stored (hashed)
representation, never the raw secret. -/
structure UserRecord where
  id : String
  name : String
  email : String
  tel : String
  password : String
  role : Role
deriving DecidableEq, Repr

/-- The user-record repository: the mongoose collection, modelled as a list. -/
abbrev Repo := List UserRecord

/-- `User.findById`: first record whose id matches, if any. -/
def findById (repo : Repo) (i : String) : Option UserRecord :=
  List.find? (fun u => u.id == i) repo

/-- `User.findOne({email})`: first record whose email matches, if any. -/
def findByEmail (repo : Repo) (e : String) : Option UserRecord :=
  List.find? (fun u => u.email == e) repo

/-- Model of the bcrypt hash (external collaborator): a one-way transform,
modelled as an injective tagging of the raw secret. -/
def hashPw (raw : String) : String := "bcrypt$" ++ raw

/-- `user.matchPassword(raw)`: bcrypt comparison of the submitted raw secret
against the stored representation. -/
def matchPassword (raw : String) (u : UserRecord) : Bool :=
  hashPw raw == u.password

/-- A signed session token: subject id, expiry instant, and whether it was
signed with the server secret.  Note the type carries no role field. -/
structure Token where
  sub : String
  exp : Nat
  sig : Bool
deriving DecidableEq, Repr

/-- `user.getSignedJwtToken()`: token bound to the user id, expiring a fixed
lifetime after issuance, signed with the server secret. -/
def signToken (u : UserRecord) (now lifetime : Nat) : Token :=
  ⟨u.id, now + lifetime, true⟩

/-- Body of a response from the login/register flow: either an error object
`{success:false, msg/message}` or the `sendTokenResponse` success body
`{success:true, _id, name, email, role, token}`. -/
inductive LoginBody where
  | err (msg : String)
  | ok (id name email : String) (role : Role) (token : Token)
deriving DecidableEq, Repr

/-- An HTTP response of the login/register flow: status code plus body. -/
structure LoginResp where
  status : Nat
  body : LoginBody
deriving DecidableEq, Repr

/-- `sendTokenResponse(user, statusCode, res)`. -/
def sendTokenResponse (u : UserRecord) (statusCode : Nat) (now lifetime : Nat) :
    LoginResp :=
  ⟨statusCode, .ok u.id u.name u.email u.role (signToken u now lifetime)⟩

/-- A JSON value in the `password` position of a request body: a string, or
a truthy non-string value (object, array, nonzero number). -/
inductive JsonStr where
  | str (s : String)
  | nonStr
deriving DecidableEq, Repr

/-- JavaScript falsiness of an optional string field: absent or empty. -/
def falsyStr (o : Option String) : Bool :=
  match o with
  | none => true
  | some s => s == ""

/-- JavaScript falsiness of an optional JSON field. -/
def jsFalsy (o : Option JsonStr) : Bool :=
  match o with
  | none => true
  | some (.str s) => s == ""
  | some .nonStr => false

/-- `exports.login`: presence check, lookup by email, bcrypt comparison.
A non-string secret makes `matchPassword` throw; the surrounding catch
answers 401 with a conversion message. -/
def login (repo : Repo) (email : Option String) (password : Option JsonStr)
    (now lifetime : Nat) : LoginResp :=
  if falsyStr email || jsFalsy password then
    ⟨400, .err "Please provide an email and password"⟩
  else
    match findByEmail repo (email.getD "") with
    | none => ⟨400, .err "Invalid credentials"⟩
    | some u =>
      match password with
      | some (.str p) =>
        if matchPassword p u then sendTokenResponse u 200 now lifetime
        else ⟨401, .err "Invalid credentials"⟩
      | _ => ⟨401, .err "Cannot convert email or password to string"⟩

/-- Shape of the error caught in `register`: `keyValue` is `none` when the
error object has no `keyValue` property (mongoose validation errors), and
`some kv` for duplicate-key errors, where `kv` is the value of
`keyValue.email` (absent when the duplicate key is another field). -/
structure JsErr where
  keyValue : Option (Option String)
deriving DecidableEq, Repr

/-- JavaScript truthiness of an optional string. -/
def truthyStr (o : Option String) : Bool :=
  match o with
  | none => false
  | some s => s != ""

/-- The catch block of `register`: builds the 400 body from
`err.keyValue.email ? "Email already exists" : "Cannot create User"`.
When `keyValue` is undefined that property access throws a TypeError, so
no response is produced (`none`). -/
def registerCatch (e : JsErr) : Option LoginResp :=
  match e.keyValue with
  | none => none
  | some kv =>
    some ⟨400, .err (if truthyStr kv then "Email already exists"
                     else "Cannot create User")⟩

/-- `User.create`: schema validation (name, email, tel, password required)
throws a validation error with no `keyValue`; a duplicate email trips the
unique index and throws with `keyValue = {email}`; otherwise the record is
persisted with the hashed password and role defaulting to `user`. -/
def userCreate (repo : Repo) (name email tel password : Option String)
    (role : Option Role) (newId : String) :
    Except JsErr (UserRecord × Repo) :=
  if name.isNone || email.isNone || tel.isNone || password.isNone then
    .error ⟨none⟩
  else if (findByEmail repo (email.getD "")).isSome then
    .error ⟨some (some (email.getD ""))⟩
  else
    let u : UserRecord :=
      ⟨newId, name.getD "", email.getD "", tel.getD "",
        hashPw (password.getD ""), role.getD Role.user⟩
    .ok (u, repo ++ [u])

/-- Observable outcome of a register request: a response, or no response at
all because the handler itself threw while building the error body. -/
inductive RegisterOut where
  | resp (r : LoginResp)
  | thrown
deriving DecidableEq, Repr

/-- `exports.register`: create the user and send the token response, or run
the catch block on the error. -/
def register (repo : Repo) (name email tel password : Option String)
    (role : Option Role) (newId : String) (now lifetime : Nat) :
    RegisterOut × Repo :=
  match userCreate repo name email tel password role newId with
  | .ok (u, repo') => (.resp (sendTokenResponse u 200 now lifetime), repo')
  | .error e =>
    match registerCatch e with
    | some r => (.resp r, repo)
    | none => (.thrown, repo)

/-- Authentication/authorization failures of the access-control gate. -/
inductive AuthErr where
  | missingToken
  | invalid
  | expired
  | userGone
  | forbidden
deriving DecidableEq, Repr

/-- Modelled from the spec: the `protect` middleware of middleware/auth.js,
absent from the provided sources.  Per section 4.3 it extracts the token,
fails with `MissingToken` when absent, verifies signature and expiry
(valid only while current time < expiry), then re-fetches the current
record by the token's subject id, failing with `UserGone` when the record
no longer exists. -/
def protect (repo : Repo) (tok : Option Token) (now : Nat) :
    Except AuthErr UserRecord :=
  match tok with
  | none => .error .missingToken
  | some t =>
    if t.sig = false then .error .invalid
    else if t.exp ≤ now then .error .expired
    else
      match findById repo t.sub with
      | none => .error .userGone
      | some u => .ok u

/-- Modelled from the spec: the `authorize(...roles)` middleware of
middleware/auth.js, absent from the provided sources.  Per section 4.3 it
compares the authenticated record's current role against the allowed set. -/
def authorize (roles : List Role) (u : UserRecord) : Bool :=
  roles.contains u.role

/-- The composed access-control gate applied before a protected handler:
authentication check, then role check, yielding the request-context record. -/
def gate (repo : Repo) (tok : Option Token) (now : Nat) (roles : List Role) :
    Except AuthErr UserRecord :=
  match protect repo tok now with
  | .error e => .error e
  | .ok u => if authorize roles u then .ok u else .error .forbidden

/-- The `data` field of a CRUD response: absent, the empty object `{}`
sent on delete success, or a user record. -/
inductive RespData where
  | none
  | emptyObj
  | user (u : UserRecord)
deriving DecidableEq, Repr

/-- An HTTP response of the CRUD handlers: status, `success` flag,
optional `message`, and `data`. -/
structure Resp where
  status : Nat
  success : Bool
  message : Option String
  data : RespData
deriving DecidableEq, Repr

/-- `exports.deleteUser`: 404 when the id resolves to no record; 401 when
the requester is neither the target nor an admin; otherwise the record is
removed and an empty-data 200 is sent. -/
def deleteUserCtrl (repo : Repo) (paramsId : String) (reqUser : UserRecord) :
    Resp × Repo :=
  match findById repo paramsId with
  | none =>
    (⟨404, false, some ("No user with the id of " ++ paramsId), .none⟩, repo)
  | some u =>
    if (paramsId != reqUser.id) && (reqUser.role != Role.admin) then
      (⟨401, false,
        some ("User " ++ reqUser.id ++ " is not authorized to delete this user"),
        .none⟩, repo)
    else
      (⟨200, true, Option.none, .emptyObj⟩,
        List.filter (fun v => v.id != u.id) repo)

/-- The DELETE /auth/:id pipeline as wired in src/routes/auth.js:
`protect`, then `authorize("admin")`, then the controller.  Per the spec,
authentication failures answer 401 and role failures answer 403. -/
def deletePipeline (repo : Repo) (paramsId : String) (tok : Option Token)
    (now : Nat) : Resp × Repo :=
  match protect repo tok now with
  | .error _ =>
    (⟨401, false, some "Not authorized to access this route", .none⟩, repo)
  | .ok u =>
    if authorize [Role.admin] u then deleteUserCtrl repo paramsId u
    else
      (⟨403, false, some "User role is not authorized to access this route",
        .none⟩, repo)

/-- A partial-update request body: each field present or absent. -/
structure Patch where
  name : Option String
  email : Option String
  tel : Option String
  password : Option String
  role : Option Role
deriving DecidableEq, Repr

/-- `Object.assign(user, req.body)` followed by `user.save()`: every present
field overwrites the document's field, and the pre-save hook re-hashes the
(modified) password before persistence. -/
def assignSave (u : UserRecord) (p : Patch) : UserRecord :=
  { id := u.id
    name := p.name.getD u.name
    email := p.email.getD u.email
    tel := p.tel.getD u.tel
    password := match p.password with
                | some raw => hashPw raw
                | none => u.password
    role := p.role.getD u.role }

/-- `User.findByIdAndUpdate(id, req.body, ...)`: a `$set` of the present
fields, without running save hooks (no re-hashing). -/
def setUpdate (u : UserRecord) (p : Patch) : UserRecord :=
  { id := u.id
    name := p.name.getD u.name
    email := p.email.getD u.email
    tel := p.tel.getD u.tel
    password := p.password.getD u.password
    role := p.role.getD u.role }

/-- Persisting an updated document: every record with the given id is
replaced by the new version. -/
def repoUpdate (repo : Repo) (i : String) (u' : UserRecord) : Repo :=
  List.map (fun v => if v.id == i then u' else v) repo

/-- `exports.updateUser`: existence check (400 `{success:false}` when the id
resolves to no record), then the self-or-admin check (401), then either the
save path (truthy password in the body) or `findByIdAndUpdate`; in the
latter path the response carries the record fetched before the update. -/
def updateUserCtrl (repo : Repo) (paramsId : String) (reqUser : UserRecord)
    (body : Patch) : Resp × Repo :=
  match findById repo paramsId with
  | none => (⟨400, false, Option.none, .none⟩, repo)
  | some u =>
    if (paramsId != reqUser.id) && (reqUser.role != Role.admin) then
      (⟨401, false,
        some ("User " ++ reqUser.id ++ " is not authorized to update this user"),
        .none⟩, repo)
    else if truthyStr body.password then
      let u' := assignSave u body
      (⟨200, true, Option.none, .user u'⟩, repoUpdate repo paramsId u')
    else
      let u' := setUpdate u body
      (⟨200, true, Option.none, .user u⟩, repoUpdate repo paramsId u')

/-- A sample stored record used in concrete witnesses. -/
def uDemo : UserRecord :=
  ⟨"u1", "Alice", "a@b.c", "0812345678", hashPw "pw", Role.user⟩

/-- A sample admin record used in concrete witnesses. -/
def adminDemo : UserRecord :=
  ⟨"a1", "Root", "root@b.c", "0899999999", hashPw "secret", Role.admin⟩

/-- `uDemo` promoted to admin: the same identity after a role change. -/
def uDemoPromoted : UserRecord :=
  ⟨"u1", "Alice", "a@b.c", "0812345678", hashPw "pw", Role.admin⟩

/-- An unexpired token for `uDemo`, signed with the server secret. -/
def tokDemo : Token := ⟨"u1", 5, true⟩

/-- An unexpired token for `adminDemo`, signed with the server secret. -/
def tokAdminDemo : Token := ⟨"a1", 5, true⟩

/-- An empty patch body. -/
def pEmpty : Patch := ⟨none, none, none, none, none⟩

/-- A patch body carrying only a new name. -/
def pName : Patch := ⟨some "Bob", none, none, none, none⟩

/-- A patch body carrying only `role: admin`. -/
def pRole : Patch := ⟨none, none, none, none, some Role.admin⟩

/-- The record found by `findById` has the id that was looked up. -/
theorem findById_id_eq {repo : Repo} {i : String} {u : UserRecord}
    (h : findById repo i = some u) : u.id = i := by
  simp only [findById] at h
  have hb := List.find?_some h
  exact eq_of_beq hb

/-- After persisting an updated document under an id that resolves,
looking the id up yields exactly the updated document. -/
theorem findById_repoUpdate (repo : Repo) (i : String) (u' : UserRecord)
    (hid : u'.id = i) (hmem : (findById repo i).isSome) :
    findById (repoUpdate repo i u') i = some u' := by
  induction repo with
  | nil => simp [findById] at hmem
  | cons v tl ih =>
    simp only [repoUpdate, List.map_cons]
    by_cases hv : (v.id == i) = true
    · simp only [if_pos hv, findById]
      rw [List.find?_cons_of_pos (p := fun u : UserRecord => u.id == i)]
      simp [hid]
    · simp only [if_neg hv]
      simp only [findById] at hmem ⊢
      rw [List.find?_cons_of_neg (p := fun u : UserRecord => u.id == i) _ hv] at hmem
      rw [List.find?_cons_of_neg (p := fun u : UserRecord => u.id == i) _ hv]
      exact ih hmem

/-- When the target exists and the self-or-admin check passes, the stored
state after `updateUserCtrl` is the persisted application of the body,
through the save path or the `$set` path depending on the password field. -/
theorem updateUserCtrl_snd (repo : Repo) (paramsId : String)
    (reqUser : UserRecord) (body : Patch) (u : UserRecord)
    (hu : findById repo paramsId = some u)
    (hauth : ((paramsId != reqUser.id) && (reqUser.role != Role.admin)) = false) :
    (updateUserCtrl repo paramsId reqUser body).snd =
      repoUpdate repo paramsId
        (if truthyStr body.password then assignSave u body
         else setUpdate u body) := by
  by_cases hpw : truthyStr body.password = true
  · simp [updateUserCtrl, hu, hauth, hpw]
  · simp [updateUserCtrl, hu, hauth, hpw]

/-- C7: for every user id that resolves to no record, `deleteUser` answers
404 not-found and performs no delete: the repository is returned unchanged. -/
theorem deleteUser_notFound_noop (repo : Repo) (paramsId : String)
    (reqUser : UserRecord) (h : findById repo paramsId = none) :
    deleteUserCtrl repo paramsId reqUser =
      (⟨404, false, some ("No user with the id of " ++ paramsId), .none⟩,
        repo) := by
  simp [deleteUserCtrl, h]

/-- Witness for C7: deleting the unknown id "zz" from a one-record store
answers 404 and leaves the store as it was. -/
theorem deleteUser_notFound_noop_witness :
    findById [uDemo] "zz" = none ∧
    deleteUserCtrl [uDemo] "zz" uDemo =
      (⟨404, false, some ("No user with the id of " ++ "zz"), .none⟩,
        [uDemo]) :=
  ⟨by decide, deleteUser_notFound_noop [uDemo] "zz" uDemo (by decide)⟩

/-- C10: `updateUser` checks existence before authorization: when the target
id resolves to no record the response is the bare 400 `{success:false}` for
every requester, and a 401 not-authorized response can only occur when the
target record exists. -/
theorem update_existence_before_auth (repo : Repo) (paramsId : String)
    (reqUser : UserRecord) (body : Patch) :
    (findById repo paramsId = none →
      updateUserCtrl repo paramsId reqUser body =
        (⟨400, false, Option.none, .none⟩, repo)) ∧
    ((updateUserCtrl repo paramsId reqUser body).fst.status = 401 →
      (findById repo paramsId).isSome) := by
  constructor
  · intro h
    simp [updateUserCtrl, h]
  · intro h
    cases hf : findById repo paramsId with
    | none => simp [updateUserCtrl, hf] at h
    | some u => simp

/-- Witness for C10: with an empty store even an admin requester gets the
bare 400 not-found response from `updateUser`. -/
theorem update_existence_before_auth_witness :
    updateUserCtrl [] "u1" adminDemo pEmpty =
      (⟨400, false, Option.none, .none⟩, []) :=
  (update_existence_before_auth [] "u1" adminDemo pEmpty).left rfl

/-- C6: partial-field update semantics: on an authorized update of an
existing record, every field of the stored record that is absent from the
patch body is unchanged in the persisted result. -/
theorem update_frame (repo : Repo) (paramsId : String) (reqUser : UserRecord)
    (body : Patch) (u : UserRecord) (hu : findById repo paramsId = some u)
    (hauth : ((paramsId != reqUser.id) && (reqUser.role != Role.admin)) = false) :
    ∃ u', findById (updateUserCtrl repo paramsId reqUser body).snd paramsId
        = some u' ∧
      u'.id = u.id ∧
      (body.name = none → u'.name = u.name) ∧
      (body.email = none → u'.email = u.email) ∧
      (body.tel = none → u'.tel = u.tel) ∧
      (body.password = none → u'.password = u.password) ∧
      (body.role = none → u'.role = u.role) := by
  have hid : u.id = paramsId := findById_id_eq hu
  refine ⟨if truthyStr body.password then assignSave u body
          else setUpdate u body, ?_, ?_, ?_, ?_, ?_, ?_, ?_⟩
  · rw [updateUserCtrl_snd repo paramsId reqUser body u hu hauth]
    apply findById_repoUpdate
    · by_cases hpw : truthyStr body.password = true <;>
        simp [hpw, assignSave, setUpdate, hid]
    · simp [hu]
  · by_cases hpw : truthyStr body.password = true <;>
      simp [hpw, assignSave, setUpdate]
  · intro h
    by_cases hpw : truthyStr body.password = true <;>
      simp [hpw, assignSave, setUpdate, h]
  · intro h
    by_cases hpw : truthyStr body.password = true <;>
      simp [hpw, assignSave, setUpdate, h]
  · intro h
    by_cases hpw : truthyStr body.password = true <;>
      simp [hpw, assignSave, setUpdate, h]
  · intro h
    simp [truthyStr, h, setUpdate]
  · intro h
    by_cases hpw : truthyStr body.password = true <;>
      simp [hpw, assignSave, setUpdate, h]

/-- Witness for C6: a name-only patch on `uDemo`'s own record leaves email,
tel, password and role of the stored record unchanged. -/
theorem update_frame_witness :
    ∃ u', findById (updateUserCtrl [uDemo] "u1" uDemo pName).snd "u1"
        = some u' ∧
      u'.id = uDemo.id ∧
      (pName.name = none → u'.name = uDemo.name) ∧
      (pName.email = none → u'.email = uDemo.email) ∧
      (pName.tel = none → u'.tel = uDemo.tel) ∧
      (pName.password = none → u'.password = uDemo.password) ∧
      (pName.role = none → u'.role = uDemo.role) :=
  update_frame [uDemo] "u1" uDemo pName uDemo (by decide) (by decide)

/-- C9: `updateUser` applies every field present in the body with no field
restriction: a successful self-update persists the body applied over the
stored record, and in particular the stored role becomes whatever role the
body carries (so a non-admin can set `role: admin` on their own record). -/
theorem update_applies_patch (repo : Repo) (u : UserRecord) (body : Patch)
    (hu : findById repo u.id = some u) :
    (updateUserCtrl repo u.id u body).fst.status = 200 ∧
    findById (updateUserCtrl repo u.id u body).snd u.id =
      some (if truthyStr body.password then assignSave u body
            else setUpdate u body) ∧
    (if truthyStr body.password then assignSave u body
     else setUpdate u body).role = body.role.getD u.role := by
  have hauth : ((u.id != u.id) && (u.role != Role.admin)) = false := by simp
  refine ⟨?_, ?_, ?_⟩
  · by_cases hpw : truthyStr body.password = true <;>
      simp [updateUserCtrl, hu, hauth, hpw]
  · rw [updateUserCtrl_snd repo u.id u body u hu hauth]
    apply findById_repoUpdate
    · by_cases hpw : truthyStr body.password = true <;>
        simp [hpw, assignSave, setUpdate]
    · simp [hu]
  · by_cases hpw : truthyStr body.password = true <;>
      simp [hpw, assignSave, setUpdate]

/-- Witness for C9: `uDemo` has role `user`, self-updates with body
`{role: admin}`, the request succeeds with 200 and the stored role is
`admin` (privilege escalation through the unrestricted update). -/
theorem update_applies_patch_witness :
    uDemo.role = Role.user ∧
    (updateUserCtrl [uDemo] uDemo.id uDemo pRole).fst.status = 200 ∧
    findById (updateUserCtrl [uDemo] uDemo.id uDemo pRole).snd uDemo.id =
      some (if truthyStr pRole.password then assignSave uDemo pRole
            else setUpdate uDemo pRole) ∧
    (if truthyStr pRole.password then assignSave uDemo pRole
     else setUpdate uDemo pRole).role = Role.admin := by
  have h := update_applies_patch [uDemo] uDemo pRole (by decide)
  exact ⟨by decide, h.1, h.2.1, by simpa [pRole] using h.2.2⟩

/-- C4 (failing input): a non-password patch `{name:"Bob"}` on `uDemo`'s
own record persists the new name, yet the 200 response carries the
pre-update record still named "Alice": the success response does not
contain the updated record. -/
theorem update_stale_response :
    (updateUserCtrl [uDemo] "u1" uDemo pName).fst =
      ⟨200, true, Option.none, .user uDemo⟩ ∧
    findById (updateUserCtrl [uDemo] "u1" uDemo pName).snd "u1" =
      some (setUpdate uDemo pName) ∧
    uDemo.name = "Alice" ∧ (setUpdate uDemo pName).name = "Bob" := by
  decide

/-- C2 (failing input): with `uDemo` (email "a@b.c", password "pw") stored,
a login with an unknown email and a login with the right email but wrong
password both answer the body `{success:false, msg:"Invalid credentials"}`,
but with status 400 in the first case and 401 in the second: the two error
responses are not identical. -/
theorem login_enum_status_differs :
    login [uDemo] (some "nobody@x") (some (.str "pw")) 0 1 =
      ⟨400, .err "Invalid credentials"⟩ ∧
    login [uDemo] (some "a@b.c") (some (.str "wrong")) 0 1 =
      ⟨401, .err "Invalid credentials"⟩ := by
  decide

/-- C5 (failing input): a create failure whose error carries no `keyValue`
(a schema-validation failure, here a missing name) makes the register catch
block itself throw while reading `err.keyValue.email`, so no response is
produced; the duplicate-email case does produce the 400 response. -/
theorem register_handler_throws :
    (register [] none (some "x@y") (some "t") (some "p") none "n1" 0 1).fst =
      RegisterOut.thrown ∧
    (register [uDemo] (some "Bob") (some "a@b.c") (some "t") (some "p")
        none "n2" 0 1).fst =
      RegisterOut.resp ⟨400, .err "Email already exists"⟩ := by
  decide

/-- C8 (counterexample): a login with a resolvable email and a non-string
secret is answered with status 401 — the status this controller uses for
authentication failures — and not with the 400 status it uses for
malformed-input (validation) failures such as missing fields. -/
theorem login_malformed_counterexample :
    login [uDemo] (some "a@b.c") (some JsonStr.nonStr) 0 1 =
      ⟨401, .err "Cannot convert email or password to string"⟩ ∧
    (401 : Nat) ≠ 400 := by
  decide

/-- C8 (amended): a malformed (non-string) secret with a resolvable email
yields a 401 response whose distinct message "Cannot convert email or
password to string" separates it from the authentication failures' body
"Invalid credentials"; the malformed-input cause is surfaced only in the
message, under the authentication-error status. -/
theorem login_malformed_response (repo : Repo) (email : Option String)
    (u : UserRecord) (now lifetime : Nat)
    (he : falsyStr email = false)
    (hu : findByEmail repo (email.getD "") = some u) :
    login repo email (some JsonStr.nonStr) now lifetime =
      ⟨401, .err "Cannot convert email or password to string"⟩ ∧
    LoginBody.err "Cannot convert email or password to string" ≠
      LoginBody.err "Invalid credentials" := by
  constructor
  · simp [login, he, jsFalsy, hu]
  · decide

/-- Witness for the amended C8: the concrete malformed login against
`uDemo`'s store. -/
theorem login_malformed_response_witness :
    login [uDemo] (some "a@b.c") (some JsonStr.nonStr) 3 7 =
      ⟨401, .err "Cannot convert email or password to string"⟩ ∧
    LoginBody.err "Cannot convert email or password to string" ≠
      LoginBody.err "Invalid credentials" :=
  login_malformed_response [uDemo] (some "a@b.c") uDemo 3 7
    (by decide) (by decide)

/-- C3: the access-control gate's decision is a function of the record
currently in the repository under the token's subject — the token carries
no role — so the same unexpired token is judged by whatever role each
repository state holds: after a role change, authorization follows the new
role. -/
theorem gate_role_rederived (repo repo' : Repo) (t : Token) (now now' : Nat)
    (roles : List Role) (u u' : UserRecord)
    (hsig : t.sig = true) (h1 : now < t.exp) (h2 : now' < t.exp)
    (hu : findById repo t.sub = some u)
    (hu' : findById repo' t.sub = some u') :
    gate repo (some t) now roles =
      (if authorize roles u then .ok u else .error .forbidden) ∧
    gate repo' (some t) now' roles =
      (if authorize roles u' then .ok u' else .error .forbidden) := by
  have e1 : ¬ t.exp ≤ now := Nat.not_le.mpr h1
  have e2 : ¬ t.exp ≤ now' := Nat.not_le.mpr h2
  constructor
  · simp [gate, protect, hsig, e1, hu]
  · simp [gate, protect, hsig, e2, hu']

/-- Witness for C3: the same unexpired token for "u1" is judged against the
store where Alice has role `user` and against the store where the same
identity was promoted to `admin`: the gate's verdict tracks the current
record's role in each. -/
theorem gate_role_rederived_witness :
    (gate [uDemo] (some tokDemo) 0 [Role.admin] =
      if authorize [Role.admin] uDemo then .ok uDemo
      else .error .forbidden) ∧
    (gate [uDemoPromoted] (some tokDemo) 0 [Role.admin] =
      if authorize [Role.admin] uDemoPromoted then .ok uDemoPromoted
      else .error .forbidden) :=
  gate_role_rederived [uDemo] [uDemoPromoted] tokDemo 0 0 [Role.admin]
    uDemo uDemoPromoted (by decide) (by decide) (by decide)
    (by decide) (by decide)

/-- C1 (counterexample): `uDemo` (role `user`) presents a valid unexpired
token and deletes their own existing record "u1", yet the DELETE pipeline —
whose route is gated by `authorize("admin")` — answers 403 and leaves the
store unchanged, instead of the claimed 200 success. -/
theorem delete_self_nonadmin_counterexample :
    (deletePipeline [uDemo] "u1" (some tokDemo) 0).fst.status = 403 ∧
    (deletePipeline [uDemo] "u1" (some tokDemo) 0).snd = [uDemo] := by
  decide

/-- C1 (amended): through the DELETE route the remove operation succeeds
(200, empty data, record removed) exactly when the authenticated requester
has role `admin`; every non-admin requester — including one targeting their
own record — is rejected with 403 by the route's role gate before the
controller's self-or-admin check can run. -/
theorem delete_admin_only (repo : Repo) (t : Token) (now : Nat)
    (u target : UserRecord) (paramsId : String)
    (hsig : t.sig = true) (hexp : now < t.exp)
    (hu : findById repo t.sub = some u)
    (ht : findById repo paramsId = some target) :
    deletePipeline repo paramsId (some t) now =
      if u.role = Role.admin then
        (⟨200, true, Option.none, .emptyObj⟩,
          List.filter (fun v => v.id != target.id) repo)
      else
        (⟨403, false,
          some "User role is not authorized to access this route",
          .none⟩, repo) := by
  have e1 : ¬ t.exp ≤ now := Nat.not_le.mpr hexp
  cases hrole : u.role with
  | admin =>
    simp [deletePipeline, protect, hsig, e1, hu, authorize, hrole,
      deleteUserCtrl, ht]
  | user =>
    simp [deletePipeline, protect, hsig, e1, hu, authorize, hrole]

/-- Witness for the amended C1: the admin `adminDemo` deletes `uDemo`'s
record through the pipeline. -/
theorem delete_admin_only_witness :
    deletePipeline [uDemo, adminDemo] "u1" (some tokAdminDemo) 0 =
      if adminDemo.role = Role.admin then
        (⟨200, true, Option.none, .emptyObj⟩,
          List.filter (fun v => v.id != uDemo.id) [uDemo, adminDemo])
      else
        (⟨403, false,
          some "User role is not authorized to access this route",
          .none⟩, [uDemo, adminDemo]) :=
  delete_admin_only [uDemo, adminDemo] tokAdminDemo 0 adminDemo uDemo "u1"
    (by decide) (by decide) (by decide) (by decide)
